import Mathlib

/-!
Shallow embedding of the client-side state controller of the F1 dashboard
(src/frontend/src/App.jsx).  The component state (the useState hooks, lines
6-16) becomes a record `AppState`; each async handler becomes a pure function
from the pre-invocation state and the network outcome to the post-completion
state together with its observable effects (follow-up calls triggered, alert
notices shown, auto-clear timers scheduled).  Payload shapes follow the JSON
contracts the render code reads.  Numeric JSON fields the controller never
computes on (points, lap times) are modelled as Rat/Int; they are opaque to
every handler.
-/

/-- Row of `data.driver_standings` as read by the render code (position,
full_name, team_name, points, wins). -/
structure DriverRow where
  position : Nat
  full_name : String
  team_name : String
  points : Rat
  wins : Nat
deriving DecidableEq

/-- Row of `data.constructor_standings`. -/
structure ConstructorRow where
  position : Nat
  team_name : String
  points : Rat
  wins : Nat
deriving DecidableEq

/-- The `latest_race` object (meeting_name, circuit_short_name, date_start,
location, round, season). -/
structure RaceMeta where
  meeting_name : String
  circuit_short_name : String
  date_start : String
  location : String
  round : Nat
  season : Nat
deriving DecidableEq

/-- Row of `data.race_results`. -/
structure ResultRow where
  position : Nat
  driver_name : String
  team : String
  points : Rat
  status : String
deriving DecidableEq

/-- The `data` payload of a successful POST /f1/fetch-data response, stored
wholesale in the `f1Data` state (App.jsx line 40). -/
structure SeasonData where
  driver_standings : List DriverRow
  constructor_standings : List ConstructorRow
  latest_race : Option RaceMeta
  race_results : List ResultRow
deriving DecidableEq

/-- A season insight `{type, insight, explanation?}` from GET /f1/insights. -/
structure Insight where
  type : String
  insight : String
  explanation : Option String
deriving DecidableEq

/-- The `champion` object of a historical-season payload. -/
structure Champion where
  name : String
  team : String
  points : Rat
  wins : Nat
deriving DecidableEq

/-- The `insights` object of a historical-season payload. -/
structure SeasonInsights where
  season_summary : String
  champion_info : Option String
deriving DecidableEq

/-- A race-calendar entry of a historical-season payload. -/
structure RaceCalendarEntry where
  round : Nat
  meeting_name : String
  circuit_short_name : String
  location : String
  date_start : String
deriving DecidableEq

/-- Payload of GET /f1/historical/:year, stored wholesale in the
`historicalData` state (App.jsx line 71); the `success` envelope flag is
consumed by the handler and not re-read, so it is dropped here. -/
structure HistoricalPayload where
  year : Nat
  champion : Option Champion
  insights : Option SeasonInsights
  race_count : Nat
  races : List RaceCalendarEntry
deriving DecidableEq

/-- A file record from GET /files; `insights` is an optional serialized
string (the render re-parses it with JSON.parse). -/
structure FileRecord where
  id : Nat
  filename : String
  upload_date : String
  file_type : String
  insights : Option String
deriving DecidableEq

/-- A per-file insight `{type, insight, details?}`. -/
structure FileInsight where
  type : String
  insight : String
  details : Option String
deriving DecidableEq

/-- The `analysis.summary` object. -/
structure AnalysisSummary where
  total_rows : Nat
  total_columns : Nat
  columns : List String
deriving DecidableEq

/-- A point of the driver-performance chart data. -/
structure DriverPerfPoint where
  driver : String
  avg_lap_time : Rat
deriving DecidableEq

/-- A point of the team-performance chart data. -/
structure TeamPerfPoint where
  team : String
  avg_lap_time : Rat
deriving DecidableEq

/-- A point of the circuit-comparison chart data. -/
structure CircuitPoint where
  circuit : String
  avg_lap_time : Rat
  laps : Nat
deriving DecidableEq

/-- The `analysis.charts` object; each chart is optional (the render guards
on each key, App.jsx lines 971, 1000, 1029). -/
structure Charts where
  driver_performance : Option (List DriverPerfPoint)
  team_performance : Option (List TeamPerfPoint)
  circuit_comparison : Option (List CircuitPoint)
deriving DecidableEq

/-- The `analysis` object of an analyze response; `summary` is guarded in the
render (line 890) so it is optional here. As a JSON object it is always
truthy in the JS sense. -/
structure Analysis where
  summary : Option AnalysisSummary
  insights : List FileInsight
  charts : Charts
deriving DecidableEq

/-- Payload of a successful GET /files/:id/analyze response, stored wholesale
in `selectedFileAnalysis` (App.jsx line 99).  Per the interface contract the
success payload carries `filename` and the `analysis` object, so the JS
truthiness test `selectedFileAnalysis?.analysis` (line 140) holds exactly
when the cache is non-empty. -/
structure AnalyzePayload where
  filename : String
  analysis : Analysis
deriving DecidableEq

/-- The component state: one field per useState hook of F1Dashboard
(App.jsx lines 6-16).  Tab identifiers are the literal strings of the
source. -/
structure AppState where
  activeTab : String
  f1Data : Option SeasonData
  insights : List Insight
  files : List FileRecord
  loading : Bool
  error : Option String
  uploadStatus : String
  selectedYear : Nat
  historicalData : Option HistoricalPayload
  selectedFileAnalysis : Option AnalyzePayload
  analyzingFileId : Option Nat
deriving DecidableEq

/-- Initial state of the component (the useState initial values). -/
def initState : AppState :=
  { activeTab := "standings"
    f1Data := none
    insights := []
    files := []
    loading := false
    error := none
    uploadStatus := ""
    selectedYear := 2024
    historicalData := none
    selectedFileAnalysis := none
    analyzingFileId := none }

/-- Outcome of one network round-trip against an endpoint that returns the
`{success, message?, ...}` envelope: `ok` is a parsed response with
`success
= true` (carrying the payload the handler stores); `declined` is a parsed
response with `success = false` (carrying the optional server `message`);
`transportError` is a thrown error (network failure, non-ok HTTP status
where checked, or JSON parse failure) whose message lands in the catch
block. -/
inductive FetchOutcome (α : Type) where
  | ok (payload : α)
  | declined (message : Option String)
  | transportError (m : String)

/-- JS `x.message || defaultText` on an optional string field: both an
absent field and an empty string are falsy and fall back to the default. -/
def jsOr (m : Option String) (d : String) : String :=
  match m with
  | some t => if t = "" then d else t
  | none => d

/-- Handler fetchF1Data (App.jsx lines 24-50).  Sets loading and clears the
banner error synchronously, then dispatches on the outcome; the Bool of the
result records whether fetchInsights() was triggered as the dependent
follow-up (line 41).  loading is reset in the finally block. -/
def fetchF1Data (s : AppState) (r : FetchOutcome SeasonData) : AppState × Bool :=
  let t := { s with loading := true, error := none }
  match r with
  | .ok d => ({ t with f1Data := some d, loading := false }, true)
  | .declined m =>
      ({ t with error := some (jsOr m "Failed to fetch data"), loading := false }, false)
  | .transportError m =>
      ({ t with
          error := some ("Backend connection failed: " ++ m ++
            ". Make sure your backend server is running on port 8000.")
          loading := false }, false)

/-- Handler fetchInsights (App.jsx lines 52-60): on a parsed response it
stores `data.insights`; any thrown error is only logged (console.error) and
the state is untouched. -/
def fetchInsights (s : AppState) (r : Option (List Insight)) : AppState :=
  match r with
  | some ins => { s with insights := ins }
  | none => s

/-- The synchronous head of fetchHistoricalData (App.jsx lines 63-65): the
loading flag is set and both the banner error and the cached historical
season are cleared before the request is issued. -/
def fetchHistoricalStart (s : AppState) : AppState :=
  { s with loading := true, error := none, historicalData := none }

/-- Handler fetchHistoricalData (App.jsx lines 62-80). -/
def fetchHistoricalData (s : AppState) (year : Nat) (r : FetchOutcome HistoricalPayload) :
    AppState :=
  let t := fetchHistoricalStart s
  match r with
  | .ok d => { t with historicalData := some d, loading := false }
  | .declined m =>
      { t with
        error := some (jsOr m ("No data available for " ++ toString year))
        loading := false }
  | .transportError m =>
      { t with error := some ("Failed to fetch historical data: " ++ m), loading := false }

/-- Handler fetchFiles (App.jsx lines 82-90): wholesale replacement of the
file list on a parsed response; a thrown error is only logged. -/
def fetchFiles (s : AppState) (r : Option (List FileRecord)) : AppState :=
  match r with
  | some fs => { s with files := fs }
  | none => s

/-- The synchronous head of analyzeFile (App.jsx line 93): the in-flight
marker is set to the requested id before the request is issued and stays so
for the whole call. -/
def analyzeInFlight (s : AppState) (fileId : Nat) : AppState :=
  { s with analyzingFileId := some fileId }

/-- Handler analyzeFile (App.jsx lines 92-109).  The List String of the
result collects the blocking alert notices shown.  analyzingFileId is reset
in the finally block on every path. -/
def analyzeFile (s : AppState) (fileId : Nat) (r : FetchOutcome AnalyzePayload) :
    AppState × List String :=
  let t := analyzeInFlight s fileId
  match r with
  | .ok d =>
      ({ t with
          selectedFileAnalysis := some d
          activeTab := "file-analysis"
          analyzingFileId := none }, [])
  | .declined m =>
      ({ t with analyzingFileId := none }, [jsOr m "Failed to analyze file"])
  | .transportError m =>
      ({ t with analyzingFileId := none }, ["Error analyzing file: " ++ m])

/-- Outcome of an upload request: `ok` is a parsed response with a truthy
`success`; `declined` is a parsed response with a falsy `success` (the
handler has no branch for it); `transportError` is a thrown error. -/
inductive UploadOutcome where
  | ok
  | declined
  | transportError (m : String)

/-- Result of handleFileUpload: the post-completion state, how many
fetchFiles() refreshes were triggered, and whether the 3-second
auto-clear timer for the status indicator was scheduled. -/
structure UploadResult where
  state : AppState
  fetchFilesCalls : Nat
  autoClear : Bool
deriving DecidableEq

/-- Handler handleFileUpload (App.jsx lines 111-133).  With no file selected
the handler returns before touching anything.  Note the success branch is
the only branch of the parsed-response path: a response with a falsy
`success` leaves the indicator at the in-progress text. -/
def handleFileUpload (s : AppState) (file : Option Unit) (r : UploadOutcome) : UploadResult :=
  match file with
  | none => ⟨s, 0, false⟩
  | some _ =>
    let t := { s with uploadStatus := "Uploading..." }
    match r with
    | .ok => ⟨{ t with uploadStatus := "Upload successful!" }, 1, true⟩
    | .declined => ⟨t, 0, false⟩
    | .transportError m => ⟨{ t with uploadStatus := "Upload failed: " ++ m }, 0, false⟩

/-- Outcome of the DELETE /files/:id request: the handler reads no body, so
only completion versus a thrown error matters. -/
inductive DeleteOutcome where
  | ok
  | transportError (m : String)

/-- Handler deleteFile (App.jsx lines 135-148).  A cancelled confirmation
returns before any request.  After a completed delete, the retraction
condition re-resolves the deleted id through the current file list; the
JS test `selectedFileAnalysis?.analysis` is truthy exactly when the cache is
non-empty (the analysis field is an object).  The Nat of the result counts
the fetchFiles() refreshes triggered; a thrown error is only logged. -/
def deleteFile (s : AppState) (fileId : Nat) (confirmed : Bool) (r : DeleteOutcome) :
    AppState × Nat :=
  if confirmed = false then (s, 0)
  else
    match r with
    | .transportError _ => (s, 0)
    | .ok =>
      let retract : Bool :=
        match s.selectedFileAnalysis with
        | some sfa =>
          match s.files.find? (fun f => f.id == fileId) with
          | some f => sfa.filename == f.filename
          | none => false
        | none => false
      if retract then
        ({ s with selectedFileAnalysis := none, activeTab := "files" }, 1)
      else (s, 1)

/-- View projection getDriverStandings (App.jsx lines 150-153): empty when no
snapshot is cached, else the first ten standings rows.  In JS an array field
is always truthy (even when empty), so the guard only tests the cache. -/
def getDriverStandings (s : AppState) : List DriverRow :=
  match s.f1Data with
  | none => []
  | some d => d.driver_standings.take 10

/-- View projection getConstructorStandings (App.jsx lines 155-158). -/
def getConstructorStandings (s : AppState) : List ConstructorRow :=
  match s.f1Data with
  | none => []
  | some d => d.constructor_standings.take 10

/-- The rendered tab list (App.jsx lines 372-380): five fixed tabs plus the
file-analysis tab appended exactly when a file analysis is cached. -/
def tabList (s : AppState) : List String :=
  ["standings", "constructors", "race", "historical", "files"] ++
    (match s.selectedFileAnalysis with
     | some _ => ["file-analysis"]
     | none => [])

/-! Concrete fixtures used by the witness and counterexample theorems. -/

/-- Fixture: file record with id 1 and filename a.csv. -/
def fileA : FileRecord :=
  { id := 1, filename := "a.csv", upload_date := "2024-01-01", file_type := "csv"
    insights := none }

/-- Fixture: file record with id 2 and filename b.csv. -/
def fileB : FileRecord :=
  { id := 2, filename := "b.csv", upload_date := "2024-01-02", file_type := "csv"
    insights := none }

/-- Fixture: a cached analyze payload for a.csv. -/
def sfaA : AnalyzePayload :=
  { filename := "a.csv"
    analysis :=
      { summary := none, insights := []
        charts := { driver_performance := none, team_performance := none
                    circuit_comparison := none } } }

/-- Fixture: state with files a.csv and b.csv listed and the a.csv analysis
cached and shown. -/
def stA : AppState :=
  { initState with
      files := [fileA, fileB]
      selectedFileAnalysis := some sfaA
      activeTab := "file-analysis" }

/-- Fixture: state where the cached analysis is for a.csv but the file list
only contains b.csv (the stale-list scenario). -/
def stStale : AppState :=
  { initState with
      files := [fileB]
      selectedFileAnalysis := some sfaA
      activeTab := "file-analysis" }

/-- Fixture: a minimal historical-season payload. -/
def hist1954 : HistoricalPayload :=
  { year := 1954, champion := none, insights := none, race_count := 0, races := [] }

/-- Fixture: state with a historical season cached. -/
def stHist : AppState := { initState with historicalData := some hist1954 }

/-- Fixture: driver row at a given championship position. -/
def drow (n : Nat) : DriverRow :=
  { position := n, full_name := "Driver", team_name := "Team", points := 0, wins := 0 }

/-- Fixture: a season snapshot with twelve driver rows ranked 1..12. -/
def season12 : SeasonData :=
  { driver_standings :=
      [drow 1, drow 2, drow 3, drow 4, drow 5, drow 6,
       drow 7, drow 8, drow 9, drow 10, drow 11, drow 12]
    constructor_standings := []
    latest_race := none
    race_results := [] }

/-- Fixture: state with the twelve-row snapshot cached. -/
def stSeason : AppState := { initState with f1Data := some season12 }

/-! The claims. -/

/-- C1: a confirmed delete of a file whose filename (resolved through the
current file list) equals the cached FileAnalysis filename clears the
analysis cache and sets activeTab to the files tab within the same handler
invocation; a confirmed delete of a listed file whose filename differs
leaves both untouched; a cancelled confirmation aborts with no side effects
at all (no state change, no list refresh). -/
theorem C1_delete_retraction (s : AppState) (fid : Nat) (f : FileRecord)
    (sfa : AnalyzePayload)
    (hf : s.files.find? (fun r => r.id == fid) = some f)
    (hsfa : s.selectedFileAnalysis = some sfa) :
    (sfa.filename = f.filename →
       (deleteFile s fid true DeleteOutcome.ok).1.selectedFileAnalysis = none
       ∧ (deleteFile s fid true DeleteOutcome.ok).1.activeTab = "files")
    ∧ (sfa.filename ≠ f.filename →
       (deleteFile s fid true DeleteOutcome.ok).1.selectedFileAnalysis
           = s.selectedFileAnalysis
       ∧ (deleteFile s fid true DeleteOutcome.ok).1.activeTab = s.activeTab)
    ∧ (deleteFile s fid false DeleteOutcome.ok).1 = s
    ∧ (deleteFile s fid false DeleteOutcome.ok).2 = 0 := by
  refine ⟨?_, ?_, rfl, rfl⟩
  · intro he
    simp [deleteFile, hsfa, hf, he]
  · intro hne
    simp [deleteFile, hsfa, hf, hne]

/-- Witness for C1 at the spec's own example: files a.csv (id 1) and b.csv
(id 2) with the a.csv analysis cached; deleting id 1 retracts, deleting id 2
touches nothing. -/
theorem C1_delete_retraction_witness :
    ((deleteFile stA 1 true DeleteOutcome.ok).1.selectedFileAnalysis = none
      ∧ (deleteFile stA 1 true DeleteOutcome.ok).1.activeTab = "files")
    ∧ ((deleteFile stA 2 true DeleteOutcome.ok).1.selectedFileAnalysis
          = stA.selectedFileAnalysis
      ∧ (deleteFile stA 2 true DeleteOutcome.ok).1.activeTab = stA.activeTab) :=
  ⟨(C1_delete_retraction stA 1 fileA sfaA (by decide) rfl).1 rfl,
   (C1_delete_retraction stA 2 fileB sfaA (by decide) rfl).2.1 (by decide)⟩

/-- C2: the file-analysis tab is in the rendered tab list exactly when a
file analysis is cached, and it is present immediately after a successful
analyze writes the cache. -/
theorem C2_file_analysis_tab (s : AppState) :
    ("file-analysis" ∈ tabList s ↔ s.selectedFileAnalysis.isSome = true)
    ∧ (∀ fid : Nat, ∀ d : AnalyzePayload,
        "file-analysis" ∈ tabList (analyzeFile s fid (FetchOutcome.ok d)).1) := by
  constructor
  · cases h : s.selectedFileAnalysis <;> simp [tabList, h]
  · intro fid d
    simp [tabList, analyzeFile, analyzeInFlight]

/-- C3: analyze sets the in-flight marker to the requested id for the
duration of the call; on success it writes the analysis cache and forces
activeTab to file-analysis; on a declined response it shows exactly one
blocking notice carrying the server message (or the default text) and on a
transport error one notice with the error text, leaving activeTab unchanged
in both failure cases; the marker is cleared on every completion path. -/
theorem C3_analyze_lifecycle (s : AppState) (fid : Nat) :
    (analyzeInFlight s fid).analyzingFileId = some fid
    ∧ (∀ d : AnalyzePayload,
        (analyzeFile s fid (FetchOutcome.ok d)).1.selectedFileAnalysis = some d
        ∧ (analyzeFile s fid (FetchOutcome.ok d)).1.activeTab = "file-analysis"
        ∧ (analyzeFile s fid (FetchOutcome.ok d)).1.analyzingFileId = none)
    ∧ (∀ m : Option String,
        (analyzeFile s fid (FetchOutcome.declined m)).1.activeTab = s.activeTab
        ∧ (analyzeFile s fid (FetchOutcome.declined m)).2
            = [jsOr m "Failed to analyze file"]
        ∧ (analyzeFile s fid (FetchOutcome.declined m)).1.analyzingFileId = none)
    ∧ (∀ m : String,
        (analyzeFile s fid (FetchOutcome.transportError m)).1.activeTab = s.activeTab
        ∧ (analyzeFile s fid (FetchOutcome.transportError m)).2
            = ["Error analyzing file: " ++ m]
        ∧ (analyzeFile s fid (FetchOutcome.transportError m)).1.analyzingFileId
            = none) :=
  ⟨rfl,
   fun _ => ⟨rfl, rfl, rfl⟩,
   fun _ => ⟨rfl, rfl, rfl⟩,
   fun _ => ⟨rfl, rfl, rfl⟩⟩

/-- C4 counterexample: with a historical season cached, a historical fetch
answered by a success=false response does change the cache state — the
handler clears the cache synchronously before the request (App.jsx line 65),
so after completion the cache does not hold the value it held immediately
before the operation was invoked. -/
theorem C4_unchanged_cache_counterexample :
    (fetchHistoricalData stHist 1955 (FetchOutcome.declined (some "no data"))).historicalData
      ≠ stHist.historicalData := by
  decide

/-- C4 (amended): on every success=false response the failure branch itself
writes nothing to any cache: the season-snapshot cache and the file-analysis
cache end exactly as they were before invocation, while the historical cache
ends empty because the operation cleared it synchronously at invocation
(before the request), not because the failure wrote anything. -/
theorem C4_declined_never_writes_cache (s : AppState) (y fid : Nat)
    (m : Option String) :
    (fetchF1Data s (FetchOutcome.declined m)).1.f1Data = s.f1Data
    ∧ (analyzeFile s fid (FetchOutcome.declined m)).1.selectedFileAnalysis
        = s.selectedFileAnalysis
    ∧ (fetchHistoricalData s y (FetchOutcome.declined m)).historicalData = none
    ∧ (fetchHistoricalData s y (FetchOutcome.declined m)).historicalData
        = (fetchHistoricalStart s).historicalData :=
  ⟨rfl, rfl, rfl, rfl⟩

/-- C5 counterexample: an upload answered by a success=false response is a
failed upload, yet the status indicator is left at the in-progress text
"Uploading..." — not at a failure message (the only failure text the handler
ever writes has the form "Upload failed: ..." and is written only on the
transport-error path, as the contrasting conjunct shows). -/
theorem C5_failure_message_counterexample :
    (handleFileUpload initState (some ()) UploadOutcome.declined).state.uploadStatus
      = "Uploading..."
    ∧ (handleFileUpload initState (some ()) UploadOutcome.declined).state.uploadStatus
      ≠ "Upload failed: connection refused"
    ∧ (handleFileUpload initState (some ())
        (UploadOutcome.transportError "connection refused")).state.uploadStatus
      = "Upload failed: connection refused" := by
  refine ⟨rfl, by decide, rfl⟩

/-- C5 (amended): only a transport failure leaves the indicator showing the
failure message "Upload failed: ..." indefinitely (no auto-clear); a
success=false response leaves the indicator stuck at the in-progress text
"Uploading..." indefinitely (no failure message and no auto-clear either);
only a successful upload sets the success text and schedules the fixed
auto-clear window. -/
theorem C5_upload_status_persistence (s : AppState) (m : String) :
    (handleFileUpload s (some ()) (UploadOutcome.transportError m)).state.uploadStatus
      = "Upload failed: " ++ m
    ∧ (handleFileUpload s (some ()) (UploadOutcome.transportError m)).autoClear = false
    ∧ (handleFileUpload s (some ()) UploadOutcome.declined).state.uploadStatus
      = "Uploading..."
    ∧ (handleFileUpload s (some ()) UploadOutcome.declined).autoClear = false
    ∧ (handleFileUpload s (some ()) UploadOutcome.ok).state.uploadStatus
      = "Upload successful!"
    ∧ (handleFileUpload s (some ()) UploadOutcome.ok).autoClear = true :=
  ⟨rfl, rfl, rfl, rfl, rfl, rfl⟩

/-- C6: a successful upload triggers exactly one file-list refresh; a failed
upload — transport failure or success=false response — triggers zero. -/
theorem C6_upload_refresh_count (s : AppState) (m : String) :
    (handleFileUpload s (some ()) UploadOutcome.ok).fetchFilesCalls = 1
    ∧ (handleFileUpload s (some ()) UploadOutcome.declined).fetchFilesCalls = 0
    ∧ (handleFileUpload s (some ()) (UploadOutcome.transportError m)).fetchFilesCalls
        = 0 :=
  ⟨rfl, rfl, rfl⟩

/-- C7: the historical fetch clears any previously cached season in its
synchronous head, before the request is issued; a success=false response
carrying the message "no data" leaves the cache empty after completion and
puts exactly the text "no data" in the banner error channel. -/
theorem C7_historical_clear_and_banner (s : AppState) (y : Nat) :
    (fetchHistoricalStart s).historicalData = none
    ∧ (fetchHistoricalData s y (FetchOutcome.declined (some "no data"))).historicalData
        = none
    ∧ (fetchHistoricalData s y (FetchOutcome.declined (some "no data"))).error
        = some "no data" := by
  refine ⟨rfl, rfl, ?_⟩
  simp [fetchHistoricalData, fetchHistoricalStart, jsOr]

/-- C8: when the cached snapshot has twelve driver rows ranked 1..12 in
ascending position order, the driver-standings projection exposes exactly
the first ten rows — it equals the ten-row front of the sequence, has length
ten, and row i carries position i+1 for every exposed index. -/
theorem C8_standings_top10 (s : AppState) (d : SeasonData)
    (hs : s.f1Data = some d)
    (hlen : d.driver_standings.length = 12)
    (hpos : ∀ i (h : i < d.driver_standings.length),
        (d.driver_standings.get ⟨i, h⟩).position = i + 1) :
    getDriverStandings s = d.driver_standings.take 10
    ∧ (getDriverStandings s).length = 10
    ∧ ∀ i (h : i < (getDriverStandings s).length),
        ((getDriverStandings s).get ⟨i, h⟩).position = i + 1 := by
  have h1 : getDriverStandings s = d.driver_standings.take 10 := by
    simp [getDriverStandings, hs]
  have h2 : (getDriverStandings s).length = 10 := by
    rw [h1, List.length_take, hlen]
    decide
  refine ⟨h1, h2, ?_⟩
  intro i h
  have hi10 : i < 10 := by rw [h2] at h; exact h
  have hid : i < d.driver_standings.length := by omega
  have h3 : (getDriverStandings s).get ⟨i, h⟩
      = d.driver_standings.get ⟨i, hid⟩ := by
    simp only [h1, List.get_eq_getElem, List.getElem_take]
  rw [h3]
  exact hpos i hid

/-- Witness for C8 on a concrete twelve-row snapshot. -/
theorem C8_standings_top10_witness :
    getDriverStandings stSeason = season12.driver_standings.take 10
    ∧ (getDriverStandings stSeason).length = 10 :=
  ⟨(C8_standings_top10 stSeason season12 rfl (by decide) (by decide)).1,
   (C8_standings_top10 stSeason season12 rfl (by decide) (by decide)).2.1⟩

/-- C9: the season-snapshot fetch triggers the insights fetch exactly on a
successful response (never on a declined response or a transport error), and
a failed insights fetch is a no-op on the state — in particular the banner
error channel is untouched. -/
theorem C9_insights_follow_up (s : AppState) (d : SeasonData) (m : Option String)
    (em : String) :
    (fetchF1Data s (FetchOutcome.ok d)).2 = true
    ∧ (fetchF1Data s (FetchOutcome.declined m)).2 = false
    ∧ (fetchF1Data s (FetchOutcome.transportError em)).2 = false
    ∧ fetchInsights s none = s
    ∧ (fetchInsights s none).error = s.error :=
  ⟨rfl, rfl, rfl, rfl, rfl⟩

/-- C10: a confirmed delete of an id that no record of the current file list
carries leaves the analysis cache and activeTab unchanged, because the
retraction rule resolves the deleted filename through the current list and a
missing id resolves to nothing — even when the cached analysis belongs to
the deleted file. -/
theorem C10_delete_missing_id (s : AppState) (fid : Nat)
    (hnone : s.files.find? (fun f => f.id == fid) = none) :
    (deleteFile s fid true DeleteOutcome.ok).1.selectedFileAnalysis
        = s.selectedFileAnalysis
    ∧ (deleteFile s fid true DeleteOutcome.ok).1.activeTab = s.activeTab := by
  cases h : s.selectedFileAnalysis with
  | none => constructor <;> simp [deleteFile, h]
  | some sfa => constructor <;> simp [deleteFile, h, hnone]

/-- Witness for C10: the cached analysis is for a.csv, the list only holds
b.csv, and deleting the stale id 1 touches neither the cache nor the tab. -/
theorem C10_delete_missing_id_witness :
    (deleteFile stStale 1 true DeleteOutcome.ok).1.selectedFileAnalysis
        = stStale.selectedFileAnalysis
    ∧ (deleteFile stStale 1 true DeleteOutcome.ok).1.activeTab = stStale.activeTab :=
  C10_delete_missing_id stStale 1 (by decide)
